import Mathlib

/-!
FairAid Guardian — aggregation-and-classification pipeline.

Shallow embedding of the core data transformations of the FairAid Guardian
dashboard (`app/streamlit/fairaid_app_local_demo.py`): the Coverage
Aggregator (group records by region; distinct-id count, sum, mean), the
Fairness Classifier (global mean, percent deviation, threshold labels),
the Anomaly Detector (duplicate `BENEFICIARY_ID` report) and the
Insight Generator (rule-based narrative templates keyed on `PERCENT_DIFF`).

Records carry exact rational amounts; the pipeline's divisions are the
total rational division (division by zero yields zero), which realises the
spec's recovery policy for a zero global average.
-/

namespace FairAid

/-- One aid-disbursement record, one row of `df_beneficiaries`.
Only the columns the pipeline reads are embedded: `AGE_GROUP`, `GENDER`
and `DATE_RECEIVED` are descriptive and never consumed by the logic. -/
structure Record where
  BENEFICIARY_ID : String
  REGION : String
  AMOUNT_RECEIVED : ℚ
deriving DecidableEq

/-- One row of `df_coverage`: the `groupby('REGION')` aggregate with
`nunique` ids, `sum` and `mean` of amounts. -/
structure CoverageRow where
  REGION : String
  TOTAL_BENEFICIARIES : ℕ
  TOTAL_DISTRIBUTED : ℚ
  AVG_AMOUNT : ℚ
deriving DecidableEq

/-- The records of one region: the group selected by `groupby('REGION')`. -/
def recordsIn (l : List Record) (r : String) : List Record :=
  l.filter (fun rec => decide (rec.REGION = r))

/-- The aggregate row for one region, mirroring
`df_beneficiaries.groupby('REGION').agg(TOTAL_BENEFICIARIES=('BENEFICIARY_ID','nunique'),
TOTAL_DISTRIBUTED=('AMOUNT_RECEIVED','sum'), AVG_AMOUNT=('AMOUNT_RECEIVED','mean'))`. -/
def coverageRow (l : List Record) (r : String) : CoverageRow :=
  { REGION := r
    TOTAL_BENEFICIARIES := (((recordsIn l r).map (fun rec => rec.BENEFICIARY_ID)).dedup).length
    TOTAL_DISTRIBUTED := ((recordsIn l r).map (fun rec => rec.AMOUNT_RECEIVED)).sum
    AVG_AMOUNT := ((recordsIn l r).map (fun rec => rec.AMOUNT_RECEIVED)).sum
      / ((recordsIn l r).length : ℚ) }

/-- `df_coverage`: one aggregate row per distinct region present in the input. -/
def df_coverage (l : List Record) : List CoverageRow :=
  ((l.map (fun rec => rec.REGION)).dedup).map (coverageRow l)

/-- `global_avg = df_beneficiaries['AMOUNT_RECEIVED'].mean()`: the population
mean over every record (not a mean of per-region means). -/
def global_avg (l : List Record) : ℚ :=
  ((l.map (fun rec => rec.AMOUNT_RECEIVED)).sum) / (l.length : ℚ)

/-- `PERCENT_DIFF = ((AVG_AMOUNT - global_avg) / global_avg) * 100`. -/
def PERCENT_DIFF (avg ga : ℚ) : ℚ := ((avg - ga) / ga) * 100

/-- The `STATUS` lambda:
`'High Disparity' if abs(x) > 20 else ('Moderate Disparity' if abs(x) > 10 else 'Fair')`. -/
def STATUS (x : ℚ) : String :=
  if |x| > 20 then "High Disparity"
  else if |x| > 10 then "Moderate Disparity"
  else "Fair"

/-- The `DISTRIBUTION_TYPE` lambda:
`'Underfunded' if x < -15 else ('Overfunded' if x > 15 else 'Balanced')`. -/
def DISTRIBUTION_TYPE (x : ℚ) : String :=
  if x < -15 then "Underfunded"
  else if x > 15 then "Overfunded"
  else "Balanced"

/-- One row of `df_fairness`: a coverage row extended with the global
average, the percent deviation and the two categorical labels. -/
structure FairnessRow where
  REGION : String
  TOTAL_BENEFICIARIES : ℕ
  TOTAL_DISTRIBUTED : ℚ
  AVG_AMOUNT : ℚ
  GLOBAL_AVG : ℚ
  PERCENT_DIFF : ℚ
  STATUS : String
  DISTRIBUTION_TYPE : String
deriving DecidableEq

/-- Extend one coverage row into a fairness row, given the global average. -/
def fairnessRow (ga : ℚ) (c : CoverageRow) : FairnessRow :=
  { REGION := c.REGION
    TOTAL_BENEFICIARIES := c.TOTAL_BENEFICIARIES
    TOTAL_DISTRIBUTED := c.TOTAL_DISTRIBUTED
    AVG_AMOUNT := c.AVG_AMOUNT
    GLOBAL_AVG := ga
    PERCENT_DIFF := FairAid.PERCENT_DIFF c.AVG_AMOUNT ga
    STATUS := FairAid.STATUS (FairAid.PERCENT_DIFF c.AVG_AMOUNT ga)
    DISTRIBUTION_TYPE := FairAid.DISTRIBUTION_TYPE (FairAid.PERCENT_DIFF c.AVG_AMOUNT ga) }

/-- `df_fairness = df_coverage.copy()` with `GLOBAL_AVG`, `PERCENT_DIFF`,
`STATUS` and `DISTRIBUTION_TYPE` columns added. -/
def df_fairness (l : List Record) : List FairnessRow :=
  (df_coverage l).map (fairnessRow (global_avg l))

/-- KPI `total_aid = df_coverage['TOTAL_DISTRIBUTED'].sum()`. -/
def total_aid (l : List Record) : ℚ :=
  ((df_coverage l).map (fun c => c.TOTAL_DISTRIBUTED)).sum

/-- KPI `avg_aid = df_coverage['AVG_AMOUNT'].mean()` — the mean of per-region
averages (the "average of averages"), distinct from `global_avg`. -/
def avg_aid (l : List Record) : ℚ :=
  ((df_coverage l).map (fun c => c.AVG_AMOUNT)).sum / ((df_coverage l).length : ℚ)

/-- One row of `df_anomalies`: a beneficiary id reported as duplicated. -/
structure AnomalyRow where
  BENEFICIARY_ID : String
  record_count : ℕ
  ANOMALY_TYPE : String
  RISK_SCORE : String
deriving DecidableEq

/-- `df_anomalies`: `dup_counts = df.groupby('BENEFICIARY_ID').size()`,
keep `dup_counts > 1`, attach `ANOMALY_TYPE = 'Duplicate Record'` and
`RISK_SCORE = 'High'`. -/
def df_anomalies (l : List Record) : List AnomalyRow :=
  ((l.map (fun rec => rec.BENEFICIARY_ID)).dedup).filterMap (fun b =>
    let c := (l.map (fun rec => rec.BENEFICIARY_ID)).count b
    if 1 < c then
      some { BENEFICIARY_ID := b, record_count := c,
             ANOMALY_TYPE := "Duplicate Record", RISK_SCORE := "High" }
    else none)

/-- The insight produced for one region: summary, cause and action text. -/
structure Insight where
  summary : String
  cause : String
  action : String
deriving DecidableEq

/-- The `diff < -15` narrative template of the mocked Cortex report.
The numeric interpolation `f"...({diff:.1f}%..."` is abstracted as the
pre-rendered string `diffStr`. -/
def underfundedReport (region diffStr : String) : Insight :=
  { summary := "⚠️ **CRITICAL FINDING**: Region " ++ region
      ++ " is severely underfunded (" ++ diffStr
      ++ "% below average). This suggests systemic exclusion or data gaps."
    cause := "Potential Cause: Remote geography or lack of local registration offices."
    action := "- 🚚 Deploy Mobile Registration Units immediately.\n- 💵 Allocate emergency supplementary budget." }

/-- The `diff > 15` narrative template of the mocked Cortex report. -/
def overfundedReport (region diffStr : String) : Insight :=
  { summary := "⚠️ **RISK FINDING**: Region " ++ region
      ++ " is receiving significantly more aid (" ++ diffStr
      ++ "% above average). This may indicate duplication or lax criteria."
    cause := "Potential Cause: Duplicate beneficiary lists or political bias."
    action := "- 🔍 Initiate Audit of beneficiary list.\n- 🆔 Enforce biometric deduping." }

/-- The else-branch (balanced) narrative template of the mocked Cortex report. -/
def balancedReport (region diffStr : String) : Insight :=
  { summary := "✅ **POSITIVE**: Region " ++ region
      ++ " is within the fair range (" ++ diffStr
      ++ "% deviation). Distribution is equitable."
    cause := "System appears to be working as intended."
    action := "- Monitor for future changes." }

/-- The Insight Generator of the local demo: the `if diff < -15 / elif
diff > 15 / else` selection among the three fixed templates. -/
def cortexReport (region diffStr : String) (diff : ℚ) : Insight :=
  if diff < -15 then underfundedReport region diffStr
  else if diff > 15 then overfundedReport region diffStr
  else balancedReport region diffStr

/-- Relabel every record's region, leaving ids and amounts unchanged:
used to state that the global average ignores the region partition. -/
def relabelRegions (g : String → String) (l : List Record) : List Record :=
  l.map (fun rec => { rec with REGION := g rec.REGION })

/-- The three-record example of the spec:
R1 twice in North (100 and 150), R2 once in South (50). -/
def exRecs : List Record :=
  [ { BENEFICIARY_ID := "R1", REGION := "North", AMOUNT_RECEIVED := 100 },
    { BENEFICIARY_ID := "R1", REGION := "North", AMOUNT_RECEIVED := 150 },
    { BENEFICIARY_ID := "R2", REGION := "South", AMOUNT_RECEIVED := 50 } ]

/-- An all-zero single-record dataset: its global average is zero. -/
def zeroRecs : List Record :=
  [ { BENEFICIARY_ID := "Z1", REGION := "North", AMOUNT_RECEIVED := 0 } ]

/-! ## Band characterisations of the two classifiers -/

lemma STATUS_eq_high_iff (x : ℚ) : STATUS x = "High Disparity" ↔ 20 < |x| := by
  unfold STATUS
  split_ifs with h1 h2
  · exact iff_of_true rfl h1
  · exact iff_of_false (by decide) h1
  · exact iff_of_false (by decide) h1

lemma STATUS_eq_mod_iff (x : ℚ) :
    STATUS x = "Moderate Disparity" ↔ 10 < |x| ∧ |x| ≤ 20 := by
  unfold STATUS
  split_ifs with h1 h2
  · exact iff_of_false (by decide) (fun hc => absurd h1 (not_lt.mpr hc.2))
  · exact iff_of_true rfl ⟨h2, not_lt.mp h1⟩
  · exact iff_of_false (by decide) (fun hc => absurd hc.1 h2)

lemma STATUS_eq_fair_iff (x : ℚ) : STATUS x = "Fair" ↔ |x| ≤ 10 := by
  unfold STATUS
  split_ifs with h1 h2
  · exact iff_of_false (by decide) (fun hc => absurd h1 (not_lt.mpr (hc.trans (by norm_num))))
  · exact iff_of_false (by decide) (not_le.mpr h2)
  · exact iff_of_true rfl (not_lt.mp h2)

lemma DT_eq_under_iff (x : ℚ) : DISTRIBUTION_TYPE x = "Underfunded" ↔ x < -15 := by
  unfold DISTRIBUTION_TYPE
  split_ifs with h1 h2
  · exact iff_of_true rfl h1
  · exact iff_of_false (by decide) h1
  · exact iff_of_false (by decide) h1

lemma DT_eq_over_iff (x : ℚ) : DISTRIBUTION_TYPE x = "Overfunded" ↔ 15 < x := by
  unfold DISTRIBUTION_TYPE
  split_ifs with h1 h2
  · exact iff_of_false (by decide) (fun hc => absurd h1 (not_lt.mpr (by linarith)))
  · exact iff_of_true rfl h2
  · exact iff_of_false (by decide) h2

lemma DT_eq_bal_iff (x : ℚ) : DISTRIBUTION_TYPE x = "Balanced" ↔ -15 ≤ x ∧ x ≤ 15 := by
  unfold DISTRIBUTION_TYPE
  split_ifs with h1 h2
  · exact iff_of_false (by decide) (fun hc => absurd h1 (not_lt.mpr hc.1))
  · exact iff_of_false (by decide) (fun hc => absurd hc.2 (not_le.mpr h2))
  · exact iff_of_true rfl ⟨not_lt.mp h1, not_lt.mp h2⟩

/-- Claim C2: the `STATUS` classifier is total and deterministic: it returns
"High Disparity" exactly when `|percent_diff| > 20`, "Moderate Disparity"
exactly when `10 < |percent_diff| ≤ 20`, and "Fair" exactly when
`|percent_diff| ≤ 10`; both comparisons being strict, the boundary values
10 and -10 classify as "Fair" and 20 and -20 as "Moderate Disparity". -/
theorem C2_STATUS_classifier (x : ℚ) :
    (STATUS x = "High Disparity" ↔ 20 < |x|) ∧
    (STATUS x = "Moderate Disparity" ↔ 10 < |x| ∧ |x| ≤ 20) ∧
    (STATUS x = "Fair" ↔ |x| ≤ 10) ∧
    STATUS (10 : ℚ) = "Fair" ∧ STATUS (-10 : ℚ) = "Fair" ∧
    STATUS (20 : ℚ) = "Moderate Disparity" ∧
    STATUS (-20 : ℚ) = "Moderate Disparity" := by
  refine ⟨STATUS_eq_high_iff x, STATUS_eq_mod_iff x, STATUS_eq_fair_iff x, ?_, ?_, ?_, ?_⟩
  · rw [STATUS_eq_fair_iff]; norm_num
  · rw [STATUS_eq_fair_iff]; norm_num
  · rw [STATUS_eq_mod_iff]; norm_num
  · rw [STATUS_eq_mod_iff]; norm_num

/-- Claim C3: the `DISTRIBUTION_TYPE` classifier is total and deterministic:
"Underfunded" exactly when `percent_diff < -15`, "Overfunded" exactly when
`percent_diff > 15`, "Balanced" otherwise; the strict comparisons put the
boundary values -15 and 15 in "Balanced". -/
theorem C3_DISTRIBUTION_TYPE_classifier (x : ℚ) :
    (DISTRIBUTION_TYPE x = "Underfunded" ↔ x < -15) ∧
    (DISTRIBUTION_TYPE x = "Overfunded" ↔ 15 < x) ∧
    (DISTRIBUTION_TYPE x = "Balanced" ↔ -15 ≤ x ∧ x ≤ 15) ∧
    DISTRIBUTION_TYPE (-15 : ℚ) = "Balanced" ∧
    DISTRIBUTION_TYPE (15 : ℚ) = "Balanced" := by
  refine ⟨DT_eq_under_iff x, DT_eq_over_iff x, DT_eq_bal_iff x, ?_, ?_⟩
  · rw [DT_eq_bal_iff]; norm_num
  · rw [DT_eq_bal_iff]; norm_num

/-- Claim C10: the two classifiers are coherent: a "Fair" status forces a
"Balanced" distribution type, a "High Disparity" status forces "Underfunded"
or "Overfunded" (never "Balanced"), and the "Moderate Disparity" band can
pair with either kind (12 is Moderate and Balanced, 18 is Moderate and
Overfunded). -/
theorem C10_classifier_coherence (x : ℚ) :
    (STATUS x = "Fair" → DISTRIBUTION_TYPE x = "Balanced") ∧
    (STATUS x = "High Disparity" →
      DISTRIBUTION_TYPE x = "Underfunded" ∨ DISTRIBUTION_TYPE x = "Overfunded") ∧
    STATUS (12 : ℚ) = "Moderate Disparity" ∧ DISTRIBUTION_TYPE (12 : ℚ) = "Balanced" ∧
    STATUS (18 : ℚ) = "Moderate Disparity" ∧
    DISTRIBUTION_TYPE (18 : ℚ) = "Overfunded" := by
  refine ⟨?_, ?_, ?_, ?_, ?_, ?_⟩
  · intro h
    have h10 := abs_le.mp ((STATUS_eq_fair_iff x).mp h)
    exact (DT_eq_bal_iff x).mpr ⟨by linarith [h10.1], by linarith [h10.2]⟩
  · intro h
    have h20 := (STATUS_eq_high_iff x).mp h
    rcases lt_abs.mp h20 with hpos | hneg
    · exact Or.inr ((DT_eq_over_iff x).mpr (by linarith))
    · exact Or.inl ((DT_eq_under_iff x).mpr (by linarith))
  · rw [STATUS_eq_mod_iff]; norm_num
  · rw [DT_eq_bal_iff]; norm_num
  · rw [STATUS_eq_mod_iff]; norm_num
  · rw [DT_eq_over_iff]; norm_num

/-- Witness for C10 at the concrete inputs 5 (Fair, hence Balanced) and
25 (High Disparity, hence Underfunded or Overfunded). -/
theorem C10_classifier_coherence_witness :
    DISTRIBUTION_TYPE (5 : ℚ) = "Balanced" ∧
    (DISTRIBUTION_TYPE (25 : ℚ) = "Underfunded" ∨
      DISTRIBUTION_TYPE (25 : ℚ) = "Overfunded") := by
  constructor
  · exact (C10_classifier_coherence 5).1 (by rw [STATUS_eq_fair_iff]; norm_num)
  · exact (C10_classifier_coherence 25).2.1 (by rw [STATUS_eq_high_iff]; norm_num)

/-! ## Insight Generator -/

lemma underfunded_ne_overfunded (region diffStr : String) :
    underfundedReport region diffStr ≠ overfundedReport region diffStr := by
  intro h
  have hne : ("Potential Cause: Remote geography or lack of local registration offices." : String)
      ≠ "Potential Cause: Duplicate beneficiary lists or political bias." := by decide
  exact hne (congrArg Insight.cause h)

lemma underfunded_ne_balanced (region diffStr : String) :
    underfundedReport region diffStr ≠ balancedReport region diffStr := by
  intro h
  have hne : ("Potential Cause: Remote geography or lack of local registration offices." : String)
      ≠ "System appears to be working as intended." := by decide
  exact hne (congrArg Insight.cause h)

lemma overfunded_ne_balanced (region diffStr : String) :
    overfundedReport region diffStr ≠ balancedReport region diffStr := by
  intro h
  have hne : ("Potential Cause: Duplicate beneficiary lists or political bias." : String)
      ≠ "System appears to be working as intended." := by decide
  exact hne (congrArg Insight.cause h)

/-- Claim C6: the Insight Generator selects exactly one of the three fixed
narrative templates by the same strict -15/+15 thresholds as
`DISTRIBUTION_TYPE`: the Underfunded template exactly when the type is
"Underfunded" (`diff < -15`), the Overfunded template exactly when it is
"Overfunded" (`diff > 15`), the Balanced template exactly when it is
"Balanced"; in particular the boundary values -15 and 15 select the
Balanced template. -/
theorem C6_insight_generator (region diffStr : String) (diff : ℚ) :
    (cortexReport region diffStr diff = underfundedReport region diffStr ↔
      DISTRIBUTION_TYPE diff = "Underfunded") ∧
    (cortexReport region diffStr diff = overfundedReport region diffStr ↔
      DISTRIBUTION_TYPE diff = "Overfunded") ∧
    (cortexReport region diffStr diff = balancedReport region diffStr ↔
      DISTRIBUTION_TYPE diff = "Balanced") ∧
    cortexReport region diffStr (-15 : ℚ) = balancedReport region diffStr ∧
    cortexReport region diffStr (15 : ℚ) = balancedReport region diffStr := by
  have hmain : ∀ d : ℚ,
      (cortexReport region diffStr d = underfundedReport region diffStr ↔
        DISTRIBUTION_TYPE d = "Underfunded") ∧
      (cortexReport region diffStr d = overfundedReport region diffStr ↔
        DISTRIBUTION_TYPE d = "Overfunded") ∧
      (cortexReport region diffStr d = balancedReport region diffStr ↔
        DISTRIBUTION_TYPE d = "Balanced") := by
    intro d
    unfold cortexReport
    split_ifs with h1 h2
    · refine ⟨iff_of_true rfl ((DT_eq_under_iff d).mpr h1), ?_, ?_⟩
      · exact iff_of_false (underfunded_ne_overfunded region diffStr)
          (fun hc => absurd ((DT_eq_over_iff d).mp hc) (by linarith))
      · exact iff_of_false (underfunded_ne_balanced region diffStr)
          (fun hc => absurd ((DT_eq_bal_iff d).mp hc).1 (by linarith))
    · refine ⟨?_, iff_of_true rfl ((DT_eq_over_iff d).mpr h2), ?_⟩
      · exact iff_of_false
          (fun hc => underfunded_ne_overfunded region diffStr hc.symm)
          (fun hc => absurd ((DT_eq_under_iff d).mp hc) (by linarith))
      · exact iff_of_false (overfunded_ne_balanced region diffStr)
          (fun hc => absurd ((DT_eq_bal_iff d).mp hc).2 (by linarith))
    · refine ⟨?_, ?_, iff_of_true rfl ((DT_eq_bal_iff d).mpr ⟨not_lt.mp h1, not_lt.mp h2⟩)⟩
      · exact iff_of_false
          (fun hc => underfunded_ne_balanced region diffStr hc.symm)
          (fun hc => absurd ((DT_eq_under_iff d).mp hc) h1)
      · exact iff_of_false
          (fun hc => overfunded_ne_balanced region diffStr hc.symm)
          (fun hc => absurd ((DT_eq_over_iff d).mp hc) h2)
  refine ⟨(hmain diff).1, (hmain diff).2.1, (hmain diff).2.2, ?_, ?_⟩
  · exact (hmain (-15)).2.2.mpr (by rw [DT_eq_bal_iff]; norm_num)
  · exact (hmain 15).2.2.mpr (by rw [DT_eq_bal_iff]; norm_num)

/-! ## Zero global average and the empty dataset -/

/-- Claim C7: when the global average is zero, the percent-difference
division is recovered rather than raised: with the total rational division
(`x / 0 = 0`) every fairness row gets `PERCENT_DIFF = 0` and hence
`STATUS = "Fair"`. -/
theorem C7_zero_global_avg_recovery (l : List Record) (h : global_avg l = 0) :
    ∀ row ∈ df_fairness l, row.PERCENT_DIFF = 0 ∧ row.STATUS = "Fair" := by
  intro row hrow
  rw [df_fairness, List.mem_map] at hrow
  obtain ⟨c, _, rfl⟩ := hrow
  have hpd : FairAid.PERCENT_DIFF c.AVG_AMOUNT (global_avg l) = 0 := by
    rw [h]
    unfold FairAid.PERCENT_DIFF
    rw [div_zero, zero_mul]
  refine ⟨hpd, ?_⟩
  show FairAid.STATUS (FairAid.PERCENT_DIFF c.AVG_AMOUNT (global_avg l)) = "Fair"
  rw [hpd, STATUS_eq_fair_iff]
  norm_num

/-- Witness for C7: the single all-zero record has global average 0, and its
fairness row reports 0% difference with status "Fair". -/
theorem C7_zero_global_avg_recovery_witness :
    global_avg zeroRecs = 0 ∧
    (fairnessRow (global_avg zeroRecs) (coverageRow zeroRecs "North")).PERCENT_DIFF = 0 ∧
    (fairnessRow (global_avg zeroRecs) (coverageRow zeroRecs "North")).STATUS = "Fair" := by
  have h0 : global_avg zeroRecs = 0 := by
    unfold global_avg zeroRecs
    norm_num
  have hmem : fairnessRow (global_avg zeroRecs) (coverageRow zeroRecs "North")
      ∈ df_fairness zeroRecs := by
    rw [show df_fairness zeroRecs
        = [fairnessRow (global_avg zeroRecs) (coverageRow zeroRecs "North")] from rfl]
    exact List.mem_cons_self _ _
  have h := C7_zero_global_avg_recovery zeroRecs h0 _ hmem
  exact ⟨h0, h.1, h.2⟩

/-- Claim C8: on the empty record set the whole pipeline degenerates
gracefully: the coverage, fairness and anomaly tables are all empty and the
global-average computation still yields a defined value, namely 0. -/
theorem C8_empty_pipeline :
    df_coverage ([] : List Record) = [] ∧
    df_fairness ([] : List Record) = [] ∧
    df_anomalies ([] : List Record) = [] ∧
    global_avg ([] : List Record) = 0 := by
  refine ⟨rfl, rfl, rfl, ?_⟩
  unfold global_avg
  norm_num

/-! ## Partitioning the amount sum by region -/

lemma sum_map_filter_split (p : Record → Bool) (f : Record → ℚ) (l : List Record) :
    ((l.filter p).map f).sum + ((l.filter (fun x => !p x)).map f).sum
      = (l.map f).sum := by
  induction l with
  | nil => simp
  | cons a l ih =>
    by_cases h : p a = true
    · rw [List.filter_cons_of_pos h, List.filter_cons_of_neg (by simp [h])]
      simp only [List.map_cons, List.sum_cons]
      rw [add_assoc, ih]
    · rw [List.filter_cons_of_neg h, List.filter_cons_of_pos (by simp [h])]
      simp only [List.map_cons, List.sum_cons]
      rw [add_left_comm, ih]

lemma keyed_sum_eq (keys : List String) (l : List Record)
    (hnd : keys.Nodup) (hcov : ∀ rec ∈ l, rec.REGION ∈ keys) :
    (keys.map (fun r => ((recordsIn l r).map (fun rec => rec.AMOUNT_RECEIVED)).sum)).sum
      = (l.map (fun rec => rec.AMOUNT_RECEIVED)).sum := by
  induction keys generalizing l with
  | nil =>
    cases l with
    | nil => simp
    | cons a l => exact absurd (hcov a (List.mem_cons_self a l)) (List.not_mem_nil _)
  | cons k ks ih =>
    have hk : k ∉ ks := (List.nodup_cons.mp hnd).1
    have hnd' : ks.Nodup := (List.nodup_cons.mp hnd).2
    have hcov' : ∀ rec ∈ l.filter (fun x => !(decide (x.REGION = k))),
        rec.REGION ∈ ks := by
      intro rec hrec
      rw [List.mem_filter] at hrec
      have h2 : rec.REGION ≠ k := by simpa using hrec.2
      rcases List.mem_cons.mp (hcov rec hrec.1) with h | h
      · exact absurd h h2
      · exact h
    have hfilter : ∀ r ∈ ks,
        recordsIn l r = recordsIn (l.filter (fun x => !(decide (x.REGION = k)))) r := by
      intro r hr
      have hrk : r ≠ k := fun h => hk (h ▸ hr)
      unfold recordsIn
      rw [List.filter_filter]
      apply List.filter_congr
      intro x _
      by_cases hx : x.REGION = r
      · simp [hx, hrk]
      · simp [hx]
    rw [List.map_cons, List.sum_cons,
      List.map_congr_left (fun r hr => congrArg
        (fun L => (List.map (fun rec => rec.AMOUNT_RECEIVED) L).sum) (hfilter r hr)),
      ih (l.filter (fun x => !(decide (x.REGION = k)))) hnd' hcov']
    exact sum_map_filter_split (fun x => decide (x.REGION = k))
      (fun rec => rec.AMOUNT_RECEIVED) l

/-- Claim C9: conservation of the total disbursed amount: for every
non-empty record set the sum of `TOTAL_DISTRIBUTED` over the coverage rows
(the KPI `total_aid`) equals the sum of `AMOUNT_RECEIVED` over all
records. -/
theorem C9_conservation (l : List Record) (h : l ≠ []) :
    total_aid l = (l.map (fun rec => rec.AMOUNT_RECEIVED)).sum ∧
    ((df_coverage l).map (fun c => c.TOTAL_DISTRIBUTED)).sum
      = (l.map (fun rec => rec.AMOUNT_RECEIVED)).sum := by
  have key : ((df_coverage l).map (fun c => c.TOTAL_DISTRIBUTED)).sum
      = (l.map (fun rec => rec.AMOUNT_RECEIVED)).sum := by
    unfold df_coverage
    rw [List.map_map]
    exact keyed_sum_eq ((l.map (fun rec => rec.REGION)).dedup) l
      (List.nodup_dedup _)
      (fun rec hrec => List.mem_dedup.mpr (List.mem_map.mpr ⟨rec, hrec, rfl⟩))
  exact ⟨key, key⟩

/-- Witness for C9 on the three-record spec example, whose total is 300. -/
theorem C9_conservation_witness :
    exRecs ≠ [] ∧ total_aid exRecs = (exRecs.map (fun rec => rec.AMOUNT_RECEIVED)).sum := by
  have hne : exRecs ≠ [] := by simp [exRecs]
  exact ⟨hne, (C9_conservation exRecs hne).1⟩

/-! ## Global average, coverage rows and anomalies -/

/-- Claim C1: the Fairness Classifier's global average is the true
population mean `sum(all amounts) / count(all records)`; it is invariant
under any relabelling of the region partition, and it is not the mean of
per-region averages: on the three-record example the population mean is 100
while the average of per-region averages (`avg_aid`) is 87.5. -/
theorem C1_global_avg_population_mean (l : List Record) (g : String → String)
    (h : l ≠ []) :
    global_avg l = ((l.map (fun rec => rec.AMOUNT_RECEIVED)).sum) / (l.length : ℚ) ∧
    global_avg (relabelRegions g l) = global_avg l ∧
    global_avg exRecs = 100 ∧ avg_aid exRecs = 175 / 2 ∧
    global_avg exRecs ≠ avg_aid exRecs := by
  have h3 : global_avg exRecs = 100 := by
    unfold global_avg exRecs
    norm_num
  have h4 : avg_aid exRecs = 175 / 2 := by
    have hcov : df_coverage exRecs = [coverageRow exRecs "North", coverageRow exRecs "South"] := rfl
    have hN : recordsIn exRecs "North"
        = [⟨"R1", "North", 100⟩, ⟨"R1", "North", 150⟩] := rfl
    have hS : recordsIn exRecs "South" = [⟨"R2", "South", 50⟩] := rfl
    rw [avg_aid, hcov]
    norm_num [coverageRow, hN, hS]
  refine ⟨rfl, ?_, h3, h4, ?_⟩
  · unfold global_avg relabelRegions
    rw [List.map_map, List.length_map]
    rfl
  · rw [h3, h4]
    norm_num

/-- Witness for C1 on the three-record spec example, with a constant
region relabelling. -/
theorem C1_global_avg_population_mean_witness :
    exRecs ≠ [] ∧
    global_avg (relabelRegions (fun _ => "Merged") exRecs) = global_avg exRecs ∧
    global_avg exRecs ≠ avg_aid exRecs := by
  have hne : exRecs ≠ [] := by simp [exRecs]
  have h := C1_global_avg_population_mean exRecs (fun _ => "Merged") hne
  exact ⟨hne, h.2.1, h.2.2.2.2⟩

lemma coverage_regions_eq (l : List Record) :
    (df_coverage l).map (fun c => c.REGION) = (l.map (fun rec => rec.REGION)).dedup := by
  unfold df_coverage
  rw [List.map_map]
  have hcomp : ((fun c : CoverageRow => c.REGION) ∘ coverageRow l) = id := rfl
  rw [hcomp, List.map_id]

/-- Claim C4: the Coverage Aggregator emits exactly one row per distinct
region present in the input (no row for absent regions), and each row
carries the distinct-beneficiary count, the amount sum, and the arithmetic
mean over all of that region's records with duplicated rows counted. -/
theorem C4_coverage_aggregator (l : List Record) :
    (((df_coverage l).map (fun c => c.REGION)).Nodup) ∧
    (∀ r : String,
      r ∈ (df_coverage l).map (fun c => c.REGION) ↔ ∃ rec ∈ l, rec.REGION = r) ∧
    (∀ c ∈ df_coverage l,
      c.TOTAL_BENEFICIARIES
          = ((recordsIn l c.REGION).map (fun rec => rec.BENEFICIARY_ID)).toFinset.card ∧
      c.TOTAL_DISTRIBUTED
          = ((recordsIn l c.REGION).map (fun rec => rec.AMOUNT_RECEIVED)).sum ∧
      c.AVG_AMOUNT * ((recordsIn l c.REGION).length : ℚ) = c.TOTAL_DISTRIBUTED) := by
  refine ⟨?_, ?_, ?_⟩
  · rw [coverage_regions_eq]
    exact List.nodup_dedup _
  · intro r
    rw [coverage_regions_eq, List.mem_dedup, List.mem_map]
  · intro c hc
    rw [df_coverage, List.mem_map] at hc
    obtain ⟨r, hr, rfl⟩ := hc
    obtain ⟨rec, hrecl, hrecr⟩ := List.mem_map.mp (List.mem_dedup.mp hr)
    have hrec : rec ∈ recordsIn l r := by
      rw [recordsIn, List.mem_filter]
      exact ⟨hrecl, by simp [hrecr]⟩
    have hlen : ((recordsIn l r).length : ℚ) ≠ 0 := by
      have hpos : (recordsIn l r).length ≠ 0 :=
        Nat.pos_iff_ne_zero.mp (List.length_pos.mpr (List.ne_nil_of_mem hrec))
      exact_mod_cast hpos
    exact ⟨(List.card_toFinset _).symm, rfl, div_mul_cancel₀ _ hlen⟩

/-- Witness for C4: the North row of the spec example is in the coverage
table and counts the duplicated id R1 once while averaging over both
rows. -/
theorem C4_coverage_aggregator_witness :
    (coverageRow exRecs "North") ∈ df_coverage exRecs ∧
    (coverageRow exRecs "North").TOTAL_BENEFICIARIES
      = ((recordsIn exRecs "North").map (fun rec => rec.BENEFICIARY_ID)).toFinset.card ∧
    (coverageRow exRecs "North").AVG_AMOUNT * ((recordsIn exRecs "North").length : ℚ)
      = (coverageRow exRecs "North").TOTAL_DISTRIBUTED := by
  have hmem : (coverageRow exRecs "North") ∈ df_coverage exRecs := by
    rw [show df_coverage exRecs
        = [coverageRow exRecs "North", coverageRow exRecs "South"] from rfl]
    exact List.mem_cons_self _ _
  have h := (C4_coverage_aggregator exRecs).2.2 _ hmem
  exact ⟨hmem, h.1, h.2.2⟩

lemma mem_df_anomalies_iff (l : List Record) (row : AnomalyRow) :
    row ∈ df_anomalies l ↔
      1 < (l.map (fun rec => rec.BENEFICIARY_ID)).count row.BENEFICIARY_ID ∧
      row = { BENEFICIARY_ID := row.BENEFICIARY_ID
              record_count := (l.map (fun rec => rec.BENEFICIARY_ID)).count row.BENEFICIARY_ID
              ANOMALY_TYPE := "Duplicate Record"
              RISK_SCORE := "High" } := by
  unfold df_anomalies
  rw [List.mem_filterMap]
  constructor
  · rintro ⟨b, hb, hsome⟩
    by_cases h : 1 < (l.map (fun rec => rec.BENEFICIARY_ID)).count b
    · rw [if_pos h] at hsome
      have heq := Option.some.inj hsome
      subst heq
      exact ⟨h, rfl⟩
    · rw [if_neg h] at hsome
      exact absurd hsome (by simp)
  · rintro ⟨hcount, heq⟩
    refine ⟨row.BENEFICIARY_ID, ?_, ?_⟩
    · rw [List.mem_dedup]
      exact List.count_pos_iff.mp (Nat.lt_of_lt_of_le Nat.zero_lt_one (Nat.le_of_lt hcount))
    · rw [if_pos hcount]
      exact congrArg some heq.symm

/-- Claim C5: the Anomaly Detector emits a row for a beneficiary id iff
that id appears at least twice in the records; the row's `record_count` is
the exact multiplicity, its `ANOMALY_TYPE` is "Duplicate Record" and its
`RISK_SCORE` is "High". -/
theorem C5_anomaly_detector (l : List Record) (b : String) :
    ((∃ row ∈ df_anomalies l, row.BENEFICIARY_ID = b) ↔
      2 ≤ (l.map (fun rec => rec.BENEFICIARY_ID)).count b) ∧
    (∀ row ∈ df_anomalies l,
      row.record_count = (l.map (fun rec => rec.BENEFICIARY_ID)).count row.BENEFICIARY_ID ∧
      row.ANOMALY_TYPE = "Duplicate Record" ∧ row.RISK_SCORE = "High") := by
  constructor
  · constructor
    · rintro ⟨row, hrow, rfl⟩
      exact ((mem_df_anomalies_iff l row).mp hrow).1
    · intro h
      refine ⟨{ BENEFICIARY_ID := b
                record_count := (l.map (fun rec => rec.BENEFICIARY_ID)).count b
                ANOMALY_TYPE := "Duplicate Record"
                RISK_SCORE := "High" }, ?_, rfl⟩
      exact (mem_df_anomalies_iff l _).mpr ⟨h, rfl⟩
  · intro row hrow
    have h := (mem_df_anomalies_iff l row).mp hrow
    exact ⟨congrArg AnomalyRow.record_count h.2,
      congrArg AnomalyRow.ANOMALY_TYPE h.2, congrArg AnomalyRow.RISK_SCORE h.2⟩

/-- Witness for C5: in the spec example, R1 appears twice and is reported
with multiplicity 2. -/
theorem C5_anomaly_detector_witness :
    (∃ row ∈ df_anomalies exRecs, row.BENEFICIARY_ID = "R1") ∧
    ({ BENEFICIARY_ID := "R1", record_count := 2, ANOMALY_TYPE := "Duplicate Record",
       RISK_SCORE := "High" } : AnomalyRow).record_count
      = (exRecs.map (fun rec => rec.BENEFICIARY_ID)).count "R1" := by
  have hcount : 2 ≤ (exRecs.map (fun rec => rec.BENEFICIARY_ID)).count "R1" := by decide
  have h := C5_anomaly_detector exRecs "R1"
  have hmem : ({ BENEFICIARY_ID := "R1", record_count := 2,
                 ANOMALY_TYPE := "Duplicate Record",
                 RISK_SCORE := "High" } : AnomalyRow)
      ∈ df_anomalies exRecs := by
    rw [show df_anomalies exRecs
        = [({ BENEFICIARY_ID := "R1", record_count := 2,
              ANOMALY_TYPE := "Duplicate Record", RISK_SCORE := "High" } : AnomalyRow)]
      from rfl]
    exact List.mem_cons_self _ _
  exact ⟨(h.1).mpr hcount, ((h.2) _ hmem).1⟩

end FairAid
